import Mathlib

/-!
Shallow embedding of the Project-C12 routing and selection engine
(`src/api/services/model.py`, `src/api/services/routing.py`, `src/api/main.py`).

Strings are modelled as Lean `String`, Python sets of words as deduplicated
lists, floats as exact rationals `ℚ`, and the mutable set of resident models
as an explicit `ServiceState` threaded through the functions.  External
collaborators (the model backend's load results, the carbon reader, the
optimization service) are abstracted as explicit environments.
-/

namespace ProjectC12

/-- ASCII model of Python `str.lower()` (all keyword sets and test inputs are
ASCII, where Python and this definition agree). -/
def pyLower (s : String) : String := String.mk (s.toList.map Char.toLower)

/-- Split a character list at whitespace characters (empty pieces are kept
here and dropped in `pySplit`, matching Python `str.split()` with no
argument, which splits on whitespace runs and drops empty pieces). -/
def splitOnWhitespace : List Char → List (List Char)
  | [] => [[]]
  | c :: cs =>
    let rest := splitOnWhitespace cs
    if c.isWhitespace then [] :: rest
    else
      match rest with
      | [] => [[c]]
      | w :: ws => (c :: w) :: ws

/-- Python `str.split()` with no argument. -/
def pySplit (s : String) : List String :=
  ((splitOnWhitespace s.toList).map (fun cs => String.mk cs)).filter
    (fun w => w ≠ "")

/-- Python `set(...)` over a list of words: duplicates collapse.  Only
membership and cardinality of the result are ever used, so a deduplicated
list is a faithful model. -/
def pySet (l : List String) : List String := l.dedup

/-- Python substring membership `kw in w` for strings. -/
def pyIn (kw w : String) : Bool := decide (List.IsInfix kw.toList w.toList)

/-- `COMPLEX_KEYWORDS` from `model.py`. -/
def COMPLEX_KEYWORDS : List String :=
  ["analyze", "explain", "compare", "evaluate", "synthesize",
   "technical", "detailed", "in-depth", "comprehensive"]

/-- `CODE_KEYWORDS['general']` from `model.py`. -/
def CODE_KEYWORDS_general : List String :=
  ["code", "program", "function", "class", "algorithm", "implement",
   "debug", "fix", "error", "bug", "compile", "runtime", "syntax"]

/-- `CODE_KEYWORDS['languages']` from `model.py`. -/
def CODE_KEYWORDS_languages : List String :=
  ["python", "javascript", "typescript", "java", "c++", "cpp", "rust",
   "go", "html", "css", "sql", "php", "swift", "kotlin"]

/-- `CODE_KEYWORDS['concepts']` from `model.py` (the duplicate `'class'` in
the Python set literal collapses). -/
def CODE_KEYWORDS_concepts : List String :=
  ["array", "string", "list", "dictionary", "hash", "tree", "graph",
   "stack", "queue", "recursion", "iteration", "loop", "sort", "search",
   "binary", "api", "async", "promise", "callback", "object", "class"]

/-- `CODE_KEYWORDS` as an association list in its declaration order. -/
def CODE_KEYWORDS : List (String × List String) :=
  [("general", CODE_KEYWORDS_general),
   ("languages", CODE_KEYWORDS_languages),
   ("concepts", CODE_KEYWORDS_concepts)]

/-- `TASK_KEYWORDS` from `model.py`, in declaration order.  Note that in the
source `TASK_KEYWORDS["code"]` is the `CODE_KEYWORDS` *dict*; iterating over a
Python dict yields its keys, so for the scoring loop the effective keyword
collection of the `code` category is the list of category names. -/
def TASK_KEYWORDS : List (String × List String) :=
  [("general", ["what", "who", "when", "where", "tell", "describe"]),
   ("analysis", ["why", "how", "analyze", "explain", "compare"]),
   ("code", CODE_KEYWORDS.map Prod.fst),
   ("qa", ["what is", "define", "meaning of", "difference between"])]

/-- `len(words & keywords)`: number of distinct words that are members of the
keyword set. -/
def countMatches (words : List String) (keywords : List String) : Nat :=
  words.countP (fun w => decide (w ∈ keywords))

/-- Python `max(items, key=lambda x: x[1])` on a nonempty association list:
fold keeping the current best, replacing it only on a strictly larger score,
so the first element with the maximal score wins. -/
def pyMaxBySnd (x : String × Nat) (xs : List (String × Nat)) : String × Nat :=
  xs.foldl (fun best y => if best.2 < y.2 then y else best) x

/-- Result of `ModelService._analyze_query`. -/
structure QueryAnalysis where
  is_complex : Bool
  is_code : Bool
  code_score : ℚ
  task_type : String
  task_scores : List (String × Nat)
  word_count : Nat
  deriving Repr, DecidableEq

/-- `words = set(query.lower().split())` in `_analyze_query`. -/
def queryWords (query : String) : List String := pySet (pySplit (pyLower query))

/-- The `matches` dict of `_analyze_query`: per code-keyword category, the
number of distinct words in that category's set. -/
def catMatches (words : List String) : List (String × Nat) :=
  CODE_KEYWORDS.map (fun p => (p.1, countMatches words p.2))

/-- `code_score` of `_analyze_query`: total code-keyword matches divided by
the distinct-word count (0 on an empty word set).  Exact rational division
(`mkRat`) models the Python float division of these small integers. -/
def codeScore (words : List String) : ℚ :=
  if words.isEmpty then 0
  else mkRat (((catMatches words).map Prod.snd).sum) words.length

/-- `is_code_query` of `_analyze_query`: any language keyword matched, or
code score above 5%. -/
def isCodeQuery (words : List String) : Bool :=
  decide (0 < (((catMatches words).lookup "languages").getD 0)) ||
  decide (mkRat 5 100 < codeScore words)

/-- `is_complex` of `_analyze_query` before the code override: a complex
keyword is present or there are more than 20 distinct words. -/
def isComplexQuery (words : List String) : Bool :=
  words.any (fun w => decide (w ∈ COMPLEX_KEYWORDS)) ||
  decide (20 < words.length)

/-- `task_scores` of `_analyze_query`: for each task category, the number
of distinct words containing (as a substring) any of its keywords. -/
def taskScores (words : List String) : List (String × Nat) :=
  TASK_KEYWORDS.map (fun p =>
    (p.1, words.countP (fun w => p.2.any (fun kw => pyIn kw w))))

/-- `primary_task` of `_analyze_query`:
`max(task_scores.items(), key=lambda x: x[1])[0]`. -/
def primaryTask (words : List String) : String :=
  match taskScores words with
  | [] => ""
  | x :: xs => (pyMaxBySnd x xs).1

/-- `ModelService._analyze_query` from `model.py`. -/
def analyze_query (query : String) : QueryAnalysis :=
  let words := queryWords query
  if isCodeQuery words then
    { is_complex := true, is_code := true, code_score := codeScore words,
      task_type := "code", task_scores := taskScores words,
      word_count := words.length }
  else
    { is_complex := isComplexQuery words, is_code := false,
      code_score := codeScore words, task_type := primaryTask words,
      task_scores := taskScores words, word_count := words.length }

/-- `CARBON_THRESHOLDS` from `model.py`. -/
def CARBON_THRESHOLDS : List (String × ℚ) :=
  [("low", 100), ("medium", 300), ("high", 500)]

/-- `ModelService._get_carbon_tier` from `model.py`. -/
def get_carbon_tier (carbon : ℚ) : String :=
  if carbon < ((CARBON_THRESHOLDS.lookup "low").getD 0) then "low"
  else if carbon < ((CARBON_THRESHOLDS.lookup "medium").getD 0) then "medium"
  else "high"

/-- One entry of `MODEL_INFO` from `model.py`. -/
structure ModelInfo where
  size : String
  energy : ℚ
  capabilities : List String
  max_tokens : Nat
  deriving Repr, DecidableEq

/-- `MODEL_INFO` from `model.py`, in its fixed declaration order
(Python dicts preserve insertion order). -/
def MODEL_INFO : List (String × ModelInfo) :=
  [("tinyllama",
    { size := "small", energy := mkRat 1 1000,
      capabilities := ["general", "qa", "classification"],
      max_tokens := 2048 }),
   ("gpt2",
    { size := "medium", energy := mkRat 1 100,
      capabilities := ["general", "qa", "analysis"],
      max_tokens := 1024 }),
   ("codellama",
    { size := "large", energy := mkRat 2 100,
      capabilities := ["code", "analysis", "technical"],
      max_tokens := 4096 })]

/-- The mutable state of `ModelService`: the ids of the resident models
(`self._models`; only membership is ever consulted, the handles themselves
are opaque to the selection logic). -/
structure ServiceState where
  models : List String
  deriving Repr, DecidableEq

/-- Environment abstracting the external model backend consulted by
`ModelService._load_model`: whether the CodeLlama weights file exists on
disk, and whether an attempted underlying backend load of a given model
succeeds (exceptions and timeouts both surface as failure in the source). -/
structure LoadEnv where
  codellamaFileExists : Bool
  loadOk : String → Bool

/-- `ModelService._load_model` from `model.py`.  Returns the boolean result,
the updated resident set, and the number of underlying backend load
invocations performed (0 when already resident, when the CodeLlama file is
missing, or for an unknown model name). -/
def load_model (env : LoadEnv) (st : ServiceState) (model_name : String) :
    Bool × ServiceState × Nat :=
  if model_name ∈ st.models then (true, st, 0)
  else if model_name = "gpt2" then
    if env.loadOk "gpt2" then (true, ⟨st.models ++ ["gpt2"]⟩, 1)
    else (false, st, 1)
  else if model_name = "codellama" then
    if env.codellamaFileExists then
      if env.loadOk "codellama" then (true, ⟨st.models ++ ["codellama"]⟩, 1)
      else (false, st, 1)
    else (false, st, 0)
  else (false, st, 0)

/-- Result of `ModelService.select_model`: the chosen model id, the updated
resident set, and the number of underlying backend load invocations. -/
structure SelectResult where
  model : String
  state : ServiceState
  loads : Nat
  deriving Repr, DecidableEq

/-- The `for model_name, info in MODEL_INFO.items()` loop of
`ModelService.select_model`: return the first model whose capability list
contains the task type and which is already resident or loads successfully;
short-circuit `model_name in self._models or await self._load_model(...)`
as in the source. -/
def select_loop (env : LoadEnv) (task_type : String) :
    List (String × ModelInfo) → ServiceState → Nat →
    Option String × ServiceState × Nat
  | [], st, n => (none, st, n)
  | (name, info) :: rest, st, n =>
    if task_type ∈ info.capabilities then
      if name ∈ st.models then (some name, st, n)
      else
        match load_model env st name with
        | (ok, st2, k) =>
          if ok then (some name, st2, n + k)
          else select_loop env task_type rest st2 (n + k)
    else select_loop env task_type rest st n

/-- `ModelService.select_model` from `model.py`. -/
def select_model (env : LoadEnv) (st : ServiceState) (query : String)
    (carbon : ℚ) : SelectResult :=
  let analysis := analyze_query query
  let carbon_tier := get_carbon_tier carbon
  let afterRule1 : Option String × ServiceState × Nat :=
    if analysis.is_code = true ∧ carbon_tier ≠ "high" then
      match load_model env st "codellama" with
      | (ok, st1, k) => (if ok then some "codellama" else none, st1, k)
    else (none, st, 0)
  match afterRule1 with
  | (some m, st1, k) => ⟨m, st1, k⟩
  | (none, st1, k) =>
    if carbon_tier ≠ "high" ∧ analysis.is_complex = true then
      match select_loop env analysis.task_type MODEL_INFO st1 k with
      | (some m, st2, k2) => ⟨m, st2, k2⟩
      | (none, st2, k2) => ⟨"tinyllama", st2, k2⟩
    else ⟨"tinyllama", st1, k⟩

/-- The rank of a carbon tier, for stating monotonicity: low < medium < high. -/
def tier_rank (t : String) : Nat :=
  if t = "low" then 0 else if t = "medium" then 1 else 2

/-- The model ids of the catalog in their fixed declaration order, as the
spec describes rule 2 of the decision order. -/
def spec_candidates : List String := ["tinyllama", "gpt2", "codellama"]

/-- Modelled from the spec wording of rule 2 of the decision order: iterate
the candidate ids in catalog order and select the first whose capability set
(looked up in the catalog) contains the task type and which is already
resident or loads successfully. -/
def spec_first_ready (env : LoadEnv) (task_type : String) :
    List String → ServiceState → Nat →
    Option String × ServiceState × Nat
  | [], st, n => (none, st, n)
  | name :: rest, st, n =>
    let caps := ((MODEL_INFO.lookup name).map ModelInfo.capabilities).getD []
    if task_type ∈ caps then
      if name ∈ st.models then (some name, st, n)
      else
        match load_model env st name with
        | (ok, st2, k) =>
          if ok then (some name, st2, n + k)
          else spec_first_ready env task_type rest st2 (n + k)
    else spec_first_ready env task_type rest st n

/-- Modelled from the spec wording of rules 2-3: under a non-high tier with a
complex profile take the first ready capable model, otherwise (or when the
iteration finds none) the baseline. -/
def spec_rules23 (env : LoadEnv) (st : ServiceState) (k : Nat)
    (profile : QueryAnalysis) (tier : String) : SelectResult :=
  if tier ≠ "high" ∧ profile.is_complex = true then
    match spec_first_ready env profile.task_type spec_candidates st k with
    | (some m, st2, k2) => ⟨m, st2, k2⟩
    | (none, st2, k2) => ⟨"tinyllama", st2, k2⟩
  else ⟨"tinyllama", st, k⟩

/-- Modelled from the spec wording of the full decision order (first
matching rule wins): rule 1 attempts CodeLlama for code profiles under a
non-high tier and falls through on failure; rules 2-3 as in
`spec_rules23`. -/
def select_model_spec (env : LoadEnv) (st : ServiceState) (query : String)
    (carbon : ℚ) : SelectResult :=
  let profile := analyze_query query
  let tier := get_carbon_tier carbon
  if profile.is_code = true ∧ tier ≠ "high" then
    match load_model env st "codellama" with
    | (ok, st1, k) =>
      if ok then ⟨"codellama", st1, k⟩ else spec_rules23 env st1 k profile tier
  else spec_rules23 env st 0 profile tier

/-- Per the spec's words for the task scoring: the count of distinct words
of the query containing (substring match, not whole word) any of the given
category's keywords. -/
def spec_task_score (query : String) (keywords : List String) : Nat :=
  ((pySet (pySplit (pyLower query))).filter
    (fun w => keywords.any (fun kw => pyIn kw w))).length

/-- Per the spec's words for the tie-break: the first category (in the
enumeration order general, analysis, code, qa) whose score is maximal. -/
def spec_first_max (s1 s2 s3 s4 : Nat) : String :=
  if s2 ≤ s1 ∧ s3 ≤ s1 ∧ s4 ≤ s1 then "general"
  else if s1 ≤ s2 ∧ s3 ≤ s2 ∧ s4 ≤ s2 then "analysis"
  else if s1 ≤ s3 ∧ s2 ≤ s3 ∧ s4 ≤ s3 then "code"
  else "qa"

/-- Outcome of `ModelService.generate_response`: a successful text, or one of
the errors raised in the source (`RuntimeError` for the two load-failure
cases, a propagated generation exception, `ValueError` for an unknown
model). -/
inductive GenOutcome where
  | ok (text : String)
  | loadBothFailed
  | loadBaselineFailed
  | genError (model : String)
  | unknownModel (model : String)
  deriving Repr, DecidableEq

/-- Result of `ModelService.generate_response`: outcome, updated resident
set, the models on which the backend generate call was invoked (in order),
and the number of underlying load invocations. -/
structure GenResult where
  outcome : GenOutcome
  state : ServiceState
  genAttempts : List String
  loads : Nat
  deriving Repr, DecidableEq

/-- Environment for the generate step: load behaviour plus, for each model,
whether a backend generate call on it succeeds and the text it produces
(the prompt construction of the source only shapes this opaque text and is
not modelled). -/
structure GenEnv where
  load : LoadEnv
  genOk : String → Bool
  genText : String → String

/-- Whether the CodeLlama branch of `generate_response` issues a second
backend call for the code block: `"write"`, `"implement"`, `"debug"` or
`"fix"` occurs in the lowered query. -/
def wantsCodeBlock (query : String) : Bool :=
  pyIn "write" (pyLower query) || pyIn "implement" (pyLower query) ||
  pyIn "debug" (pyLower query) || pyIn "fix" (pyLower query)

/-- The generate phase of `ModelService.generate_response` (the body of the
`try:` once `model_name` is resident): one backend call for tinyllama and
gpt2, one or two for codellama, `ValueError` otherwise; a failing call
propagates immediately. -/
def generate_calls (env : GenEnv) (query model_name : String) :
    GenOutcome × List String :=
  if model_name = "tinyllama" then
    if env.genOk "tinyllama" then (.ok (env.genText "tinyllama"), ["tinyllama"])
    else (.genError "tinyllama", ["tinyllama"])
  else if model_name = "codellama" then
    if env.genOk "codellama" then
      if wantsCodeBlock query then
        if env.genOk "codellama" then
          (.ok (env.genText "codellama"), ["codellama", "codellama"])
        else (.genError "codellama", ["codellama", "codellama"])
      else (.ok (env.genText "codellama"), ["codellama"])
    else (.genError "codellama", ["codellama"])
  else if model_name = "gpt2" then
    if env.genOk "gpt2" then (.ok (env.genText "gpt2"), ["gpt2"])
    else (.genError "gpt2", ["gpt2"])
  else (.unknownModel model_name, [])

/-- `ModelService.generate_response` from `model.py`: if the requested model
is not resident, load it; on load failure fall back to the baseline
`"tinyllama"` (load-level fallback, once), raising if that also fails; then
run the generate phase, whose failures propagate with no retry. -/
def generate_response (env : GenEnv) (st : ServiceState)
    (model_name query : String) : GenResult :=
  let afterLoad : Option String × ServiceState × Nat :=
    if model_name ∈ st.models then (some model_name, st, 0)
    else
      match load_model env.load st model_name with
      | (true, st1, k) => (some model_name, st1, k)
      | (false, st1, k) =>
        if model_name ≠ "tinyllama" then
          match load_model env.load st1 "tinyllama" with
          | (true, st2, k2) => (some "tinyllama", st2, k + k2)
          | (false, st2, k2) => (none, st2, k + k2)
        else (none, st1, k)
  match afterLoad with
  | (some m, st1, k) =>
    match generate_calls env query m with
    | (out, attempts) => ⟨out, st1, attempts, k⟩
  | (none, st1, k) =>
    if model_name ≠ "tinyllama" then ⟨.loadBothFailed, st1, [], k⟩
    else ⟨.loadBaselineFailed, st1, [], k⟩

/-- Result of the `/api/ask` endpoint (`ask_query` in `main.py`): the
response text on success or an HTTP 500 error, together with the generate
result it came from. -/
structure AskResult where
  response : Option String
  model : String
  gen : GenResult
  deriving Repr, DecidableEq

/-- `ask_query` from `main.py` with `model='auto'`: select a model, generate
with it, and map any raised error to an HTTP 500 response; there is no
retry at this level. -/
def ask_query (env : GenEnv) (st : ServiceState) (text : String)
    (carbon : ℚ) : AskResult :=
  let sel := select_model env.load st text carbon
  let gen := generate_response env sel.state sel.model text
  match gen.outcome with
  | .ok t => ⟨some t, sel.model, gen⟩
  | _ => ⟨none, sel.model, gen⟩

/-- One entry of `RoutingService.request_history` (`routing.py`): the dict
appended by `RoutingService.select_model`. -/
structure SelectionRecord where
  timestamp : Nat
  model_id : String
  carbon_intensity : ℚ
  task_complexity : ℚ
  performance_threshold : ℚ
  optimization_strategy : String
  carbon_savings : ℚ
  deriving Repr, DecidableEq

/-- Result of `RoutingService.get_performance_metrics`. -/
structure PerformanceMetrics where
  total_requests : Nat
  average_carbon_savings : ℚ
  average_performance_score : ℚ
  deriving Repr, DecidableEq

/-- `RoutingService.get_performance_metrics` from `routing.py`. -/
def get_performance_metrics (history : List SelectionRecord) :
    PerformanceMetrics :=
  if history.isEmpty then ⟨0, 0, 0⟩
  else
    ⟨history.length,
     (history.map (fun r => r.carbon_savings)).sum / (history.length : ℚ),
     (history.map (fun r => r.performance_threshold)).sum /
       (history.length : ℚ)⟩

/-- Python list slicing `l[-limit:]` for an integer `limit`, as used by
`get_request_history`: a negative slice start counts from the end and clamps
at 0; a non-negative start (which arises for `limit ≤ 0`) counts from the
front. -/
def pySliceLast {α : Type} (limit : Int) (l : List α) : List α :=
  l.drop (if -limit < 0 then max ((l.length : Int) + -limit) 0
          else min (-limit) (l.length : Int)).toNat

/-- `RoutingService.get_request_history` from `routing.py`:
`self.request_history[-limit:]`. -/
def get_request_history (history : List SelectionRecord) (limit : Int) :
    List SelectionRecord :=
  pySliceLast limit history

/-- One entry returned by `get_available_models` as consumed by
`RoutingService.select_model` (that producer is not part of the sources, so
its entries are supplied by the environment). -/
structure AvailableModel where
  model_id : String
  carbon_footprint_per_inference : ℚ
  performance_score : ℚ
  deriving Repr, DecidableEq

/-- Environment of external collaborators consumed by
`RoutingService.select_model`: the carbon reading, the available-model

list, and the optimization service's recommendation. -/
structure RoutingEnv where
  carbon_intensity : ℚ
  available_models : List AvailableModel
  strategy_id : String
  carbon_reduction : ℚ

/-- A scored model as built in `RoutingService.select_model`. -/
structure ModelScore where
  model_id : String
  score : ℚ
  carbon_impact : ℚ
  performance_score : ℚ
  deriving Repr, DecidableEq

/-- The score computation of `RoutingService.select_model`: carbon impact
weighted 60%, performance 40%. -/
def routing_model_scores (env : RoutingEnv) : List ModelScore :=
  env.available_models.map (fun m =>
    let carbon_impact := m.carbon_footprint_per_inference * env.carbon_intensity
    let performance_score := m.performance_score
    ⟨m.model_id,
     (1 - carbon_impact) * (mkRat 6 10) + performance_score * (mkRat 4 10),
     carbon_impact, performance_score⟩)

/-- Stable insertion into a list sorted by strictly descending score:
the new element goes after every existing element with a score `≥` its own.
Python `list.sort(key=..., reverse=True)` is a stable sort by the same key,
so it produces exactly this order. -/
def insertByScoreDesc (x : ModelScore) : List ModelScore → List ModelScore
  | [] => [x]
  | y :: ys =>
    if y.score < x.score then x :: y :: ys else y :: insertByScoreDesc x ys

/-- Stable sort by descending score (`model_scores.sort(key=lambda x:
x["score"], reverse=True)` in `routing.py`). -/
def sortByScoreDesc : List ModelScore → List ModelScore
  | [] => []
  | x :: xs => insertByScoreDesc x (sortByScoreDesc xs)

/-- `RoutingService.select_model` from `routing.py`, reduced to the parts
with observable effect on the ledger: score and sort the available models,
take the first meeting the performance threshold (raising `ValueError`,
modelled as `none` with the history unchanged, when none does), and append
the selection record.  Returns the record (if any) and the new history. -/
def routingRecord (env : RoutingEnv) (sel : ModelScore)
    (task_complexity performance_threshold : ℚ) (now : Nat) :
    SelectionRecord :=
  ⟨now, sel.model_id, env.carbon_intensity, task_complexity,
   performance_threshold, env.strategy_id, env.carbon_reduction⟩

def routing_select_model (env : RoutingEnv) (history : List SelectionRecord)
    (task_complexity performance_threshold : ℚ) (now : Nat) :
    Option SelectionRecord × List SelectionRecord :=
  match (sortByScoreDesc (routing_model_scores env)).find?
      (fun ms => performance_threshold ≤ ms.performance_score) with
  | none => (none, history)
  | some sel =>
    (some (routingRecord env sel task_complexity performance_threshold now),
     history ++ [routingRecord env sel task_complexity performance_threshold now])

/-- A load environment in which every backend load succeeds. -/
def envAllOk : LoadEnv := ⟨true, fun _ => true⟩

/-- A load environment in which every backend load fails. -/
def envNoLoad : LoadEnv := ⟨true, fun _ => false⟩

/-- The state right after startup: only the baseline model is resident. -/
def stBase : ServiceState := ⟨["tinyllama"]⟩

/-- A state in which the baseline and CodeLlama are resident. -/
def stCode : ServiceState := ⟨["tinyllama", "codellama"]⟩

/-- A generate environment in which loads succeed but every generate call on
`"codellama"` raises, while other models generate fine. -/
def envGenFailCode : GenEnv :=
  ⟨⟨true, fun _ => true⟩, fun m => !(m == "codellama"), fun _ => "ok"⟩

/-- A generate environment in which every backend load fails and every
generate call succeeds. -/
def envLoadFail : GenEnv := ⟨⟨true, fun _ => false⟩, fun _ => true, fun _ => "ok"⟩

/-- A sample ledger record with `carbon_savings = 0.4`. -/
def recA : SelectionRecord :=
  ⟨0, "gpt2-small", 1/2, 1/2, 7/10, "quantization", 2/5⟩

/-- A sample ledger record with `carbon_savings = 0.6`. -/
def recB : SelectionRecord :=
  ⟨1, "gpt2-small", 1/2, 3/5, 7/10, "quantization", 3/5⟩

/-- A routing environment with a single available model, mirroring the mock
collaborators of `tests/test_routing.py` (values as reduced rationals so
that they evaluate). -/
def envRouting : RoutingEnv :=
  ⟨mkRat 1 2, [⟨"gpt2-small", mkRat 1 10, mkRat 8 10⟩], "quantization",
   mkRat 2 5⟩

/-- The record `routing_select_model` appends for `envRouting` with
`task_complexity = 1/2` and `performance_threshold = 7/10`. -/
def recRouting : SelectionRecord :=
  ⟨0, "gpt2-small", mkRat 1 2, mkRat 1 2, mkRat 7 10, "quantization",
   mkRat 2 5⟩

/-! ## Theorems -/

/-- The threshold lookups in `get_carbon_tier` evaluate to the literal
thresholds 100 and 300. -/
theorem get_carbon_tier_eq (r : ℚ) :
    get_carbon_tier r =
      if r < 100 then "low" else if r < 300 then "medium" else "high" := rfl

/-- A reading of at least 300 is classified `high`. -/
theorem get_carbon_tier_high {r : ℚ} (h : 300 ≤ r) :
    get_carbon_tier r = "high" := by
  rw [get_carbon_tier_eq, if_neg (by linarith), if_neg (by linarith)]

/-- C3: the carbon tier classifier is total on ℚ with exact thresholds
(`r < 100 → low`, `100 ≤ r < 300 → medium`, `300 ≤ r → high`), is monotonic
non-decreasing in tier rank, and maps the boundary readings 99.999, 100,
299.999 and 300 to low, medium, medium and high respectively. -/
theorem carbon_tier_total_monotone_boundaries :
    (∀ r : ℚ, (r < 100 → get_carbon_tier r = "low") ∧
      (100 ≤ r → r < 300 → get_carbon_tier r = "medium") ∧
      (300 ≤ r → get_carbon_tier r = "high")) ∧
    (∀ r1 r2 : ℚ, r1 ≤ r2 →
      tier_rank (get_carbon_tier r1) ≤ tier_rank (get_carbon_tier r2)) ∧
    get_carbon_tier (99999/1000) = "low" ∧
    get_carbon_tier 100 = "medium" ∧
    get_carbon_tier (299999/1000) = "medium" ∧
    get_carbon_tier 300 = "high" := by
  refine ⟨fun r => ⟨fun h => ?_, fun h1 h2 => ?_, fun h => ?_⟩,
    fun r1 r2 h => ?_, ?_, ?_, ?_, ?_⟩
  · rw [get_carbon_tier_eq, if_pos h]
  · rw [get_carbon_tier_eq, if_neg (by linarith), if_pos h2]
  · exact get_carbon_tier_high h
  · rw [get_carbon_tier_eq, get_carbon_tier_eq]
    split_ifs <;> simp [tier_rank] <;> linarith
  · rw [get_carbon_tier_eq, if_pos (by norm_num)]
  · rw [get_carbon_tier_eq, if_neg (by norm_num), if_pos (by norm_num)]
  · rw [get_carbon_tier_eq, if_neg (by norm_num), if_pos (by norm_num)]
  · rw [get_carbon_tier_eq, if_neg (by norm_num), if_neg (by norm_num)]

/-- Witness for C3 at concrete readings 50, 150, 520 and the pair (50, 350). -/
theorem carbon_tier_boundaries_witness :
    ((50 : ℚ) < 100 ∧ get_carbon_tier 50 = "low") ∧
    ((100 : ℚ) ≤ 150 ∧ (150 : ℚ) < 300 ∧ get_carbon_tier 150 = "medium") ∧
    ((300 : ℚ) ≤ 520 ∧ get_carbon_tier 520 = "high") ∧
    ((50 : ℚ) ≤ 350 ∧
      tier_rank (get_carbon_tier 50) ≤ tier_rank (get_carbon_tier 350)) :=
  ⟨⟨by decide, (carbon_tier_total_monotone_boundaries.1 50).1 (by decide)⟩,
   ⟨by decide, by decide,
    (carbon_tier_total_monotone_boundaries.1 150).2.1 (by decide) (by decide)⟩,
   ⟨by decide, (carbon_tier_total_monotone_boundaries.1 520).2.2 (by decide)⟩,
   ⟨by decide,
    carbon_tier_total_monotone_boundaries.2.1 50 350 (by decide)⟩⟩

/-- C2: under a high-tier reading (`300 ≤ carbon`) `select_model` returns
the baseline `"tinyllama"`, performs no underlying load invocation, and
leaves the resident set unchanged, for every query and state. -/
theorem select_model_high_tier_baseline (env : LoadEnv) (st : ServiceState)
    (q : String) (c : ℚ) (hc : 300 ≤ c) :
    select_model env st q c = ⟨"tinyllama", st, 0⟩ := by
  have ht := get_carbon_tier_high hc
  simp [select_model, ht]

/-- Witness for C2: the spec's end-to-end example, query `"hello"` at
reading 520, and a code query `"write python code"` at the same reading. -/
theorem select_model_high_tier_baseline_witness :
    ((300 : ℚ) ≤ 520 ∧
      select_model envAllOk stBase "hello" 520 = ⟨"tinyllama", stBase, 0⟩) ∧
    select_model envAllOk stBase "write python code" 520 =
      ⟨"tinyllama", stBase, 0⟩ :=
  ⟨⟨by decide, select_model_high_tier_baseline envAllOk stBase "hello" 520
      (by decide)⟩,
   select_model_high_tier_baseline envAllOk stBase "write python code" 520
      (by decide)⟩

/-- The language-category entry of the `matches` dict is the count of
distinct words that are language keywords. -/
theorem catMatches_lookup_languages (words : List String) :
    (((catMatches words).lookup "languages").getD 0) =
      countMatches words CODE_KEYWORDS_languages := rfl

/-- C4: a query one of whose (lowercased, whitespace-split) words is a
language-name keyword is classified as a code query, and its task type
(capability hint) is forced to `"code"`, regardless of any other content. -/
theorem language_keyword_forces_code_task (q kw : String)
    (hkw : kw ∈ CODE_KEYWORDS_languages)
    (hw : kw ∈ queryWords q) :
    (analyze_query q).is_code = true ∧ (analyze_query q).task_type = "code" := by
  have hlang : 0 < (((catMatches (queryWords q)).lookup "languages").getD 0) := by
    rw [catMatches_lookup_languages]
    exact List.countP_pos_iff.mpr ⟨kw, hw, decide_eq_true hkw⟩
  have hic : isCodeQuery (queryWords q) = true := by
    unfold isCodeQuery
    rw [decide_eq_true hlang, Bool.true_or]
  simp [analyze_query, hic]

/-- Witness for C4 at the spec's example query, keyword `"python"`. -/
theorem language_keyword_forces_code_task_witness :
    ("python" ∈ CODE_KEYWORDS_languages ∧
      "python" ∈ queryWords "explain this python function") ∧
    (analyze_query "explain this python function").is_code = true ∧
    (analyze_query "explain this python function").task_type = "code" :=
  ⟨⟨by decide, by decide⟩,
   language_keyword_forces_code_task "explain this python function" "python"
     (by decide) (by decide)⟩

/-- C7: `get_performance_metrics` returns all zeros on an empty history
without dividing by zero, and on a non-empty history of n records returns
`total_requests = n` and the arithmetic mean of the recorded
`carbon_savings`; in particular two records with savings 0.4 and 0.6
average to 0.5. -/
theorem metrics_empty_zero_and_mean :
    get_performance_metrics [] = ⟨0, 0, 0⟩ ∧
    (∀ h : List SelectionRecord, h ≠ [] →
      (get_performance_metrics h).total_requests = h.length ∧
      (get_performance_metrics h).average_carbon_savings =
        (h.map (fun r => r.carbon_savings)).sum / (h.length : ℚ)) ∧
    (∀ r1 r2 : SelectionRecord, r1.carbon_savings = 2/5 →
      r2.carbon_savings = 3/5 →
      (get_performance_metrics [r1, r2]).average_carbon_savings = 1/2) := by
  refine ⟨rfl, fun h hne => ?_, fun r1 r2 h1 h2 => ?_⟩
  · cases h with
    | nil => exact absurd rfl hne
    | cons a t => exact ⟨rfl, rfl⟩
  · show ([r1, r2].map (fun r => r.carbon_savings)).sum / (2 : ℚ) = 1/2
    simp [h1, h2]
    norm_num

/-- Witness for C7: the two sample records with savings 0.4 and 0.6. -/
theorem metrics_empty_zero_and_mean_witness :
    (recA.carbon_savings = 2/5 ∧ recB.carbon_savings = 3/5 ∧
      (get_performance_metrics [recA, recB]).average_carbon_savings = 1/2) ∧
    ([recA, recB] ≠ ([] : List SelectionRecord) ∧
      (get_performance_metrics [recA, recB]).total_requests =
        [recA, recB].length) :=
  ⟨⟨rfl, rfl, metrics_empty_zero_and_mean.2.2 recA recB rfl rfl⟩,
   ⟨by decide, (metrics_empty_zero_and_mean.2.1 [recA, recB] (by decide)).1⟩⟩

/-- Counterexample to C8 as stated: with one retained record, a limit of 0
returns the whole history (Python `l[-0:]` is `l[0:]`), not the last 0
entries. -/
theorem history_limit_zero_counterexample :
    get_request_history [recA] 0 = [recA] ∧
    [recA] ≠ ([] : List SelectionRecord) :=
  ⟨rfl, by decide⟩

/-- C8 (amended to positive limits): for every positive limit, the returned
history is a suffix of the retained records (append order, most recent
last) of length exactly `min limit n`. -/
theorem history_positive_limit_suffix (h : List SelectionRecord)
    (limit : Int) (hl : 0 < limit) :
    List.IsSuffix (get_request_history h limit) h ∧
    (get_request_history h limit).length = min limit.toNat h.length := by
  unfold get_request_history pySliceLast
  rw [if_pos (by omega : (-limit : Int) < 0)]
  refine ⟨List.drop_suffix _ _, ?_⟩
  rw [List.length_drop]
  have hn : (0 : Int) ≤ (h.length : Int) := by positivity
  omega

/-- Witness for C8 at a two-record history with limit 1. -/
theorem history_positive_limit_suffix_witness :
    (0 : Int) < 1 ∧
    List.IsSuffix (get_request_history [recA, recB] 1) [recA, recB] ∧
    (get_request_history [recA, recB] 1).length =
      min (1 : Int).toNat [recA, recB].length :=
  ⟨by decide,
   (history_positive_limit_suffix [recA, recB] 1 (by decide)).1,
   (history_positive_limit_suffix [recA, recB] 1 (by decide)).2⟩

/-- C10: the recorded `performance_threshold` of a successful routing
selection is exactly the caller-supplied argument (appended to the
history), and `average_performance_score` is the arithmetic mean of those
recorded thresholds — not of the chosen models' performance scores. -/
theorem avg_performance_is_mean_of_thresholds :
    (∀ (env : RoutingEnv) (hist : List SelectionRecord) (tc pt : ℚ)
       (now : Nat) (rec : SelectionRecord) (hist' : List SelectionRecord),
       routing_select_model env hist tc pt now = (some rec, hist') →
       rec.performance_threshold = pt ∧ hist' = hist ++ [rec]) ∧
    (∀ h : List SelectionRecord, h ≠ [] →
      (get_performance_metrics h).average_performance_score =
        (h.map (fun r => r.performance_threshold)).sum / (h.length : ℚ)) := by
  constructor
  · intro env hist tc pt now rec hist' hEq
    unfold routing_select_model at hEq
    split at hEq
    · exact absurd hEq (by simp)
    · rw [Prod.mk.injEq, Option.some.injEq] at hEq
      obtain ⟨h1, h2⟩ := hEq
      subst h1
      exact ⟨rfl, h2.symm⟩
  · intro h hne
    cases h with
    | nil => exact absurd rfl hne
    | cons a t => rfl

/-- Witness for C10: the single-model routing environment; the recorded
threshold 0.7 differs from the chosen model's performance score 0.8. -/
theorem avg_performance_is_mean_of_thresholds_witness :
    (routing_select_model envRouting [] (mkRat 1 2) (mkRat 7 10) 0 =
        (some recRouting, [recRouting]) ∧
      recRouting.performance_threshold = mkRat 7 10 ∧
      [recRouting] = ([] : List SelectionRecord) ++ [recRouting]) ∧
    ([recRouting] ≠ ([] : List SelectionRecord) ∧
      (get_performance_metrics [recRouting]).average_performance_score =
        ([recRouting].map (fun r => r.performance_threshold)).sum /
          (([recRouting].length : Nat) : ℚ)) :=
  ⟨⟨by decide,
    avg_performance_is_mean_of_thresholds.1 envRouting [] (mkRat 1 2)
      (mkRat 7 10) 0 recRouting [recRouting] (by decide)⟩,
   ⟨by decide,
    avg_performance_is_mean_of_thresholds.2 [recRouting] (by decide)⟩⟩

/-- Python's `max` with a key returns the first element attaining the
maximal score: on the four task categories the fold equals the
first-category-with-maximum rule. -/
theorem pyMaxBySnd_four (s1 s2 s3 s4 : Nat) :
    (pyMaxBySnd ("general", s1)
      [("analysis", s2), ("code", s3), ("qa", s4)]).1 =
      spec_first_max s1 s2 s3 s4 := by
  unfold pyMaxBySnd spec_first_max
  simp only [List.foldl]
  split_ifs <;> simp_all <;> omega

/-- The spec-side score (filter length) equals the embedding's `countP`. -/
theorem spec_task_score_eq (q : String) (kws : List String) :
    spec_task_score q kws =
      (queryWords q).countP (fun w => kws.any (fun kw => pyIn kw w)) := by
  unfold spec_task_score queryWords
  rw [List.countP_eq_length_filter]

/-- `primary_task` is the first category (in enumeration order
general, analysis, code, qa) with the maximal substring-match score; the
`code` category's effective keywords are the `CODE_KEYWORDS` dict keys. -/
theorem primaryTask_eq (words : List String) :
    primaryTask words = spec_first_max
      (words.countP (fun w =>
        (["what", "who", "when", "where", "tell", "describe"]).any
          (fun kw => pyIn kw w)))
      (words.countP (fun w =>
        (["why", "how", "analyze", "explain", "compare"]).any
          (fun kw => pyIn kw w)))
      (words.countP (fun w =>
        (["general", "languages", "concepts"]).any (fun kw => pyIn kw w)))
      (words.countP (fun w =>
        (["what is", "define", "meaning of", "difference between"]).any
          (fun kw => pyIn kw w))) := by
  unfold primaryTask taskScores TASK_KEYWORDS CODE_KEYWORDS
  simp only [List.map]
  exact pyMaxBySnd_four _ _ _ _

/-- C5: the task type is the category (among general, analysis, code, qa,
in that fixed order) with the highest count of words containing any of that
category's keywords as a substring, first category winning ties; a code
query overrides this with task type `"code"` and forced complexity.  (In
the source `TASK_KEYWORDS["code"]` is the `CODE_KEYWORDS` dict, so the code
category's keywords are its keys `general`, `languages`, `concepts`.) -/
theorem task_type_first_max_and_code_override (q : String) :
    ((analyze_query q).is_code = true →
      (analyze_query q).task_type = "code" ∧
      (analyze_query q).is_complex = true) ∧
    ((analyze_query q).is_code = false →
      (analyze_query q).task_type =
        spec_first_max
          (spec_task_score q
            ["what", "who", "when", "where", "tell", "describe"])
          (spec_task_score q ["why", "how", "analyze", "explain", "compare"])
          (spec_task_score q ["general", "languages", "concepts"])
          (spec_task_score q
            ["what is", "define", "meaning of", "difference between"])) := by
  cases hic : isCodeQuery (queryWords q) with
  | true =>
    refine ⟨fun _ => ⟨?_, ?_⟩, fun hf => ?_⟩
    · simp [analyze_query, hic]
    · simp [analyze_query, hic]
    · exfalso
      revert hf
      simp [analyze_query, hic]
  | false =>
    refine ⟨fun ht => ?_, fun _ => ?_⟩
    · exfalso
      revert ht
      simp [analyze_query, hic]
    · simp only [spec_task_score_eq]
      have hmain : (analyze_query q).task_type = primaryTask (queryWords q) := by
        simp [analyze_query, hic]
      rw [hmain]
      exact primaryTask_eq (queryWords q)

/-- Witness for C5: a code query (`"write python code"`) gets the override;
a plain query (`"hello"`) gets the scored first-maximum task type. -/
theorem task_type_first_max_witness :
    ((analyze_query "write python code").is_code = true ∧
      (analyze_query "write python code").task_type = "code" ∧
      (analyze_query "write python code").is_complex = true) ∧
    ((analyze_query "hello").is_code = false ∧
      (analyze_query "hello").task_type =
        spec_first_max
          (spec_task_score "hello"
            ["what", "who", "when", "where", "tell", "describe"])
          (spec_task_score "hello"
            ["why", "how", "analyze", "explain", "compare"])
          (spec_task_score "hello" ["general", "languages", "concepts"])
          (spec_task_score "hello"
            ["what is", "define", "meaning of", "difference between"])) :=
  ⟨⟨by decide,
    (task_type_first_max_and_code_override "write python code").1 (by decide)⟩,
   ⟨by decide,
    (task_type_first_max_and_code_override "hello").2 (by decide)⟩⟩

/-- The catalog iteration of rule 2 equals the spec-side iteration over the
candidate ids tinyllama, gpt2, codellama with capabilities looked up in the
catalog: the declaration order of `MODEL_INFO` is exactly that list. -/
theorem select_loop_eq_spec (env : LoadEnv) (t : String) (st : ServiceState)
    (n : Nat) :
    select_loop env t MODEL_INFO st n =
      spec_first_ready env t spec_candidates st n := rfl

/-- C1: `select_model` follows the spec's decision order (first matching
rule wins): rule 1 attempts CodeLlama for code profiles off-peak and falls
through on failure; rule 2 iterates the catalog in declaration order
(tinyllama, gpt2, codellama) for complex profiles off-peak, taking the
first capable resident-or-loadable model; rule 3 falls back to the
baseline. -/
theorem select_model_follows_decision_order (env : LoadEnv)
    (st : ServiceState) (q : String) (c : ℚ) :
    select_model env st q c = select_model_spec env st q c := by
  unfold select_model select_model_spec spec_rules23
  by_cases h : (analyze_query q).is_code = true ∧ get_carbon_tier c ≠ "high"
  · simp only [if_pos h]
    rcases hl : load_model env st "codellama" with ⟨ok, st1, k⟩
    cases ok
    · simp [select_loop_eq_spec]
    · simp
  · simp only [if_neg h]
    simp [select_loop_eq_spec]

/-- Counterexample to C6 as stated: the auto-selected CodeLlama (resident,
code query, low-carbon reading 80) fails during the generate step; the
caller surfaces an HTTP error with the baseline never retried (the only
generate attempt is on `"codellama"`). -/
theorem generate_failure_no_baseline_retry :
    (ask_query envGenFailCode stCode "write python code" 80).model =
      "codellama" ∧
    (ask_query envGenFailCode stCode "write python code" 80).response =
      none ∧
    (ask_query envGenFailCode stCode "write python code" 80).gen.genAttempts =
      ["codellama"] := by
  decide

/-- C6 (amended): the only baseline retry is at load time —
`generate_response` falls back to `"tinyllama"` exactly once when the
requested model fails to load (generating only on the baseline), while a
failure of the generate step itself is surfaced immediately with no
baseline retry. -/
theorem generate_fallback_on_load_failure_only (env : GenEnv)
    (st : ServiceState) (q m : String) :
    (m ∉ st.models → (load_model env.load st m).1 = false →
      m ≠ "tinyllama" →
      ∀ x ∈ (generate_response env st m q).genAttempts, x = "tinyllama") ∧
    (m ∈ st.models → m ∈ spec_candidates → env.genOk m = false →
      (generate_response env st m q).outcome = GenOutcome.genError m ∧
      (m ≠ "tinyllama" →
        "tinyllama" ∉ (generate_response env st m q).genAttempts)) := by
  constructor
  · intro hmem hfail hm x hx
    unfold generate_response at hx
    rw [if_neg hmem] at hx
    rcases hl : load_model env.load st m with ⟨ok, st1, k⟩
    rw [hl] at hfail hx
    simp only at hfail
    subst hfail
    dsimp only at hx
    rw [if_pos hm] at hx
    rcases hl2 : load_model env.load st1 "tinyllama" with ⟨ok2, st2, k2⟩
    rw [hl2] at hx
    cases ok2
    · simp [hm] at hx
    · simp only [generate_calls, if_pos rfl] at hx
      by_cases hg : env.genOk "tinyllama" = true
      · rw [if_pos hg] at hx
        simpa using hx
      · rw [if_neg hg] at hx
        simpa using hx
  · intro hmem hcand hfail
    unfold generate_response
    rw [if_pos hmem]
    simp only [spec_candidates, List.mem_cons, List.not_mem_nil,
      or_false] at hcand
    rcases hcand with h | h | h <;> subst h
    · constructor
      · simp [generate_calls, hfail]
      · intro hm
        exact absurd rfl hm
    · constructor
      · simp [generate_calls, hfail]
      · intro hm
        simp [generate_calls, hfail]
    · constructor
      · simp [generate_calls, hfail]
      · intro hm
        simp [generate_calls, hfail]

/-- Witness for C6 (amended): load-time fallback for a non-resident
CodeLlama whose load fails, and a resident CodeLlama whose generate call
fails with no baseline attempt. -/
theorem generate_fallback_witness :
    ("codellama" ∉ stBase.models ∧
      (load_model envLoadFail.load stBase "codellama").1 = false ∧
      "codellama" ≠ "tinyllama" ∧
      ∀ x ∈ (generate_response envLoadFail stBase "codellama" "hi").genAttempts,
        x = "tinyllama") ∧
    ("codellama" ∈ stCode.models ∧ "codellama" ∈ spec_candidates ∧
      envGenFailCode.genOk "codellama" = false ∧
      (generate_response envGenFailCode stCode "codellama" "hi").outcome =
        GenOutcome.genError "codellama" ∧
      "tinyllama" ∉
        (generate_response envGenFailCode stCode "codellama" "hi").genAttempts) :=
  ⟨⟨by decide, by decide, by decide,
    (generate_fallback_on_load_failure_only envLoadFail stBase "hi"
      "codellama").1 (by decide) (by decide) (by decide)⟩,
   ⟨by decide, by decide, by decide,
    ((generate_fallback_on_load_failure_only envGenFailCode stCode "hi"
      "codellama").2 (by decide) (by decide) (by decide)).1,
    ((generate_fallback_on_load_failure_only envGenFailCode stCode "hi"
      "codellama").2 (by decide) (by decide) (by decide)).2 (by decide)⟩⟩

end ProjectC12
